import Mathlib

/-!
Shallow embedding of the weekly-digest pipeline of this repository:
the retrying HTTP helper and paginated archived-document listing of
src/readwise_digest/readwise_client.py, the aggregation step of
src/readwise_digest/data_processor.py, and the overview computation of
src/readwise_digest/markdown_generator.py.

Machine integers are modelled as Nat / Int (Python integers are unbounded),
timestamps as integers (datetime comparison is a total order on parsed
instants), and fallible Python code as Except.
-/

/-- Value of the Retry-After header on a 429 response, as seen by
the call int(response.headers.get(...)): either a string parseable as an
integer n, or a string present but not parseable (int raises ValueError). -/
inductive HeaderVal where
  | parseable (n : Nat)
  | unparseable
deriving DecidableEq

/-- Outcome of one transport attempt inside ReadwiseClient._make_request:
either self.session.request raises a requests RequestException carrying a
message, or a response arrives with a status code, an optional Retry-After
header value and a JSON body. -/
inductive Attempt where
  | exc (msg : String)
  | resp (status : Nat) (retryAfter : Option HeaderVal) (body : String)

/-- Transport-level cause recorded by the retry loop: a RequestException
raised by the session call, or the HTTPError that response.raise_for_status
raises on a 4xx or 5xx status (HTTPError is a subclass of RequestException,
so the except clause catches both). -/
inductive TransportErr where
  | reqExc (msg : String)
  | httpError (status : Nat)
deriving DecidableEq

/-- Failure modes of ReadwiseClient._make_request: the ReadwiseAPIError
raised when the last attempt fails (carrying the last underlying error),
the ReadwiseAPIError("Max retries exceeded") raised when the for-loop ends
after rate-limit continues, and the ValueError raised by int() on an
unparseable Retry-After header. -/
inductive RWError where
  | exhausted (last : TransportErr)
  | maxRetries
  | valueError
deriving DecidableEq

/-- Constant max_retries = 3 of ReadwiseClient._make_request. -/
def max_retries : Nat := 3

/-- Constant base_delay = 1 of ReadwiseClient._make_request. -/
def base_delay : Nat := 1

/-- Retry loop of ReadwiseClient._make_request, one step per iteration of
the for-loop over range(max_retries). The parameters are the current
attempt index, the remaining number of iterations, and the time.sleep
durations performed so far; the result pairs all sleeps with the outcome.
A 429 status sleeps the Retry-After value (ValueError when unparseable,
base_delay * 2 ^ attempt when absent) and continues; raise_for_status on a
4xx or 5xx raises an HTTPError that the RequestException handler catches:
the last attempt re-raises as ReadwiseAPIError, earlier attempts sleep
base_delay * 2 ^ attempt and continue; any other status returns the body;
an exhausted loop raises ReadwiseAPIError("Max retries exceeded"). -/
def mrGo (transport : Nat → Attempt) :
    Nat → Nat → List Nat → List Nat × Except RWError String
  | _, 0, sleeps => (sleeps, .error .maxRetries)
  | attempt, remaining + 1, sleeps =>
    match transport attempt with
    | .resp status hdr body =>
      if status = 429 then
        match hdr with
        | some (.parseable n) => mrGo transport (attempt + 1) remaining (sleeps ++ [n])
        | some .unparseable => (sleeps, .error .valueError)
        | none => mrGo transport (attempt + 1) remaining (sleeps ++ [base_delay * 2 ^ attempt])
      else if 400 ≤ status ∧ status < 600 then
        if attempt = max_retries - 1 then
          (sleeps, .error (.exhausted (.httpError status)))
        else
          mrGo transport (attempt + 1) remaining (sleeps ++ [base_delay * 2 ^ attempt])
      else
        (sleeps, .ok body)
    | .exc msg =>
      if attempt = max_retries - 1 then
        (sleeps, .error (.exhausted (.reqExc msg)))
      else
        mrGo transport (attempt + 1) remaining (sleeps ++ [base_delay * 2 ^ attempt])

/-- ReadwiseClient._make_request applied to a transport: runs the retry
loop from attempt 0 with max_retries iterations and no sleeps yet. -/
def make_request (transport : Nat → Attempt) : List Nat × Except RWError String :=
  mrGo transport 0 max_retries []

example :
    make_request (fun a => if a < 2 then .exc "boom" else .resp 200 none "ok")
      = ([1, 2], .ok "ok") := by rfl

example :
    make_request (fun _ => .resp 404 none "nf")
      = ([1, 2], .error (.exhausted (.httpError 404))) := by rfl

example :
    make_request (fun _ => .resp 429 (some .unparseable) "")
      = ([], .error .valueError) := by rfl

example :
    make_request (fun a => if a = 0 then .resp 429 (some (.parseable 5)) "" else .resp 200 none "ok")
      = ([5], .ok "ok") := by rfl

example :
    make_request (fun _ => .exc "down")
      = ([1, 2], .error (.exhausted (.reqExc "down"))) := by rfl

/-- Python dict .get for a field modelled as Option (Option a): the outer
Option is key presence, the inner Option is a present None value. A missing
key yields the given default, a present key yields its (possibly None)
value. -/
def dictGet {α : Type} (field : Option (Option α)) (default : Option α) : Option α :=
  match field with
  | none => default
  | some v => v

/-- Value of a timestamp field as read by doc.get in get_archived_documents:
falsy covers a missing key, a present None and the empty string (all falsy in
the if/elif tests); good t is a truthy string that datetime.fromisoformat
parses to the instant t; bad is a truthy string on which fromisoformat
raises ValueError. -/
inductive TsVal where
  | falsy
  | good (t : Int)
  | bad
deriving DecidableEq

/-- RawDocument record of one entry of a page's results list, with the
fields the client filter and the data processor read. String-valued fields
are Option (Option String) per dictGet; tags are carried but never read by
the pipeline. -/
structure RawDoc where
  title : Option (Option String) := none
  author : Option (Option String) := none
  source : Option (Option String) := none
  category : Option (Option String) := none
  location : Option (Option String) := none
  word_count : Option (Option Int) := none
  source_url : Option (Option String) := none
  site_name : Option (Option String) := none
  published_date : Option (Option String) := none
  summary : Option (Option String) := none
  last_moved_at : TsVal := .falsy
  updated_at : TsVal := .falsy
  tags : Option (Option (List String)) := none
deriving DecidableEq

/-- Per-record body of the filtering loop of
ReadwiseClient.get_archived_documents: when last_moved_at is truthy it is
parsed (ValueError on a bad string propagates as .error) and the record is
kept iff the parsed instant is >= start_date and doc.get("location") ==
"archive"; otherwise, when updated_at is truthy, the same test runs on it;
otherwise the record is dropped. -/
def filterDoc (start_date : Int) (doc : RawDoc) : Except Unit Bool :=
  match doc.last_moved_at with
  | .good last_moved =>
    .ok (decide (start_date ≤ last_moved) && (dictGet doc.location none == some "archive"))
  | .bad => .error ()
  | .falsy =>
    match doc.updated_at with
    | .good updated =>
      .ok (decide (start_date ≤ updated) && (dictGet doc.location none == some "archive"))
    | .bad => .error ()
    | .falsy => .ok false

/-- Filtering loop of get_archived_documents over one page's results list,
in list order; the first ValueError aborts the whole call. -/
def filterPage (start_date : Int) (docs : List RawDoc) : Except Unit (List RawDoc) :=
  match docs with
  | [] => .ok []
  | doc :: rest =>
    match filterDoc start_date doc with
    | .error e => .error e
    | .ok keep =>
      match filterPage start_date rest with
      | .error e => .error e
      | .ok tail => .ok (if keep then doc :: tail else tail)

/-- Spec-side keep predicate, transcribed from the specification sentence:
keep a record iff its location equals "archive" AND (its last_moved_at
timestamp is >= since when present, else its updated_at timestamp is >=
since when present, else drop it). -/
def keepSpec (since : Int) (doc : RawDoc) : Bool :=
  (dictGet doc.location none == some "archive") &&
  (match doc.last_moved_at with
   | .good t => decide (since ≤ t)
   | _ =>
     match doc.updated_at with
     | .good t => decide (since ≤ t)
     | _ => false)

/-- A record is well formed when neither of its timestamp fields is a truthy
string that fromisoformat rejects. -/
def wfDoc (doc : RawDoc) : Bool :=
  doc.last_moved_at != TsVal.bad && doc.updated_at != TsVal.bad

/-- One page response of the Reader list endpoint, as read by
get_archived_documents: response_data.get("results", []) and
response_data.get("nextPageCursor"). -/
structure PageResp where
  results : List RawDoc
  nextPageCursor : Option String
deriving DecidableEq

/-- Truthiness of the pageCursor value in the test `if not page_cursor`:
a missing cursor (None) and an empty string are falsy. -/
def cursorTruthy : Option String → Bool
  | none => false
  | some s => s != ""

/-- Failure modes of the listing walk: a ValueError from a record timestamp,
or the walk asking for one more page than the supplied response sequence
holds (a modelling artifact: the hypotheses of every theorem below rule it
out). -/
inductive FetchErr where
  | parseError
  | noPage
deriving DecidableEq

/-- While-loop of ReadwiseClient.get_archived_documents. Each iteration
consumes the next page response (one _make_request call), filters its
results, extends all_documents, and continues exactly when the page's
nextPageCursor is truthy. Returns the number of fetch calls performed
together with the accumulated documents. -/
def gadGo (start_date : Int) :
    List PageResp → List RawDoc → Nat → Except FetchErr (Nat × List RawDoc)
  | [], _, _ => .error .noPage
  | page :: rest, all_documents, calls =>
    match filterPage start_date page.results with
    | .error _ => .error .parseError
    | .ok filtered =>
      if cursorTruthy page.nextPageCursor then
        gadGo start_date rest (all_documents ++ filtered) (calls + 1)
      else
        .ok (calls + 1, all_documents ++ filtered)

/-- ReadwiseClient.get_archived_documents over a sequence of page responses
served in order: the walk starts with no documents and no calls made. -/
def get_archived_documents (start_date : Int) (responses : List PageResp) :
    Except FetchErr (Nat × List RawDoc) :=
  gadGo start_date responses [] 0

example :
    filterPage 5 [{ location := some (some "archive"), last_moved_at := .good 7 },
                  { location := some (some "archive"), last_moved_at := .good 3 },
                  { location := some (some "new"), last_moved_at := .good 9 },
                  { location := some (some "archive"), updated_at := .good 6 },
                  { location := some (some "archive") }]
      = .ok [{ location := some (some "archive"), last_moved_at := .good 7 },
             { location := some (some "archive"), updated_at := .good 6 }] := by rfl

example :
    filterPage 5 [{ location := some (some "archive"), last_moved_at := .bad },
                  { location := some (some "archive"), last_moved_at := .good 7 }]
      = .error () := by rfl

example :
    get_archived_documents 5
      [⟨[{ location := some (some "archive"), last_moved_at := .good 7 }], some "c1"⟩,
       ⟨[{ location := some (some "archive"), last_moved_at := .good 8 }], some "c2"⟩,
       ⟨[{ location := some (some "archive"), last_moved_at := .good 9 }], none⟩,
       ⟨[{ location := some (some "archive"), last_moved_at := .good 2 }], none⟩]
      = .ok (3, [{ location := some (some "archive"), last_moved_at := .good 7 },
                 { location := some (some "archive"), last_moved_at := .good 8 },
                 { location := some (some "archive"), last_moved_at := .good 9 }]) := by rfl

/-- Single increment of a collections.Counter, modelled as an association
list in key insertion order (Counter preserves first-encountered key order):
a present key is bumped in place, a new key is appended with count 1. Keys
are Option String because a present-but-None field value becomes the Python
None key. -/
def counterIncr (c : List (Option String × Nat)) (key : Option String) :
    List (Option String × Nat) :=
  match c with
  | [] => [(key, 1)]
  | (k, n) :: rest =>
    if k = key then (k, n + 1) :: rest else (k, n) :: counterIncr rest key

/-- Counter.most_common() with no argument: sorted(items, key=count,
reverse=True). CPython sorted is stable also under reverse=True, so entries
are ordered by descending count with ties in first-encountered order;
insertion sort under the non-strict relation "left count at least right
count" is the same stable descending sort (an element is inserted before
the first element whose count it reaches, hence after all earlier elements
of equal count). -/
def mostCommon (c : List (Option String × Nat)) : List (Option String × Nat) :=
  c.insertionSort (fun a b => b.2 ≤ a.2)

/-- ProcessedDocument dict built per document inside
DataProcessor._process_archived_documents, with the dict .get defaults of
the source. The two timestamp fields store the raw string value (default
empty string, itself falsy), kept here as the TsVal abstraction. -/
structure ProcessedDoc where
  title : Option String
  author : Option String
  source : Option String
  category : Option String
  location : Option String
  word_count : Int
  source_url : Option String
  site_name : Option String
  published_date : Option String
  summary : Option String
  last_moved_at : TsVal
  updated_at : TsVal
deriving DecidableEq

/-- Word-count read doc.get("word_count", 0) or 0: a missing key takes the
default 0; a present None and a present 0 are falsy, so the `or 0` turns
both into 0. -/
def wordCountVal (doc : RawDoc) : Int :=
  match dictGet doc.word_count (some 0) with
  | none => 0
  | some n => if n = 0 then 0 else n

/-- Per-document body of the processing loop of
_process_archived_documents building the processed_doc dict. -/
def processDoc (doc : RawDoc) : ProcessedDoc :=
  { title := dictGet doc.title (some "Untitled")
    author := dictGet doc.author (some "")
    source := dictGet doc.source (some "unknown")
    category := dictGet doc.category (some "unknown")
    location := dictGet doc.location (some "unknown")
    word_count := wordCountVal doc
    source_url := dictGet doc.source_url (some "")
    site_name := dictGet doc.site_name (some "")
    published_date := dictGet doc.published_date (some "")
    summary := dictGet doc.summary (some "")
    last_moved_at := doc.last_moved_at
    updated_at := doc.updated_at }

/-- Output dict of DataProcessor._process_archived_documents (both the
empty-input early return and the main path build exactly these entries). -/
structure DocumentStats where
  total_count : Nat
  total_word_count : Int
  category_breakdown : List (Option String × Nat)
  source_breakdown : List (Option String × Nat)
  location_breakdown : List (Option String × Nat)
  documents : List ProcessedDoc
deriving DecidableEq

/-- Keys of the dict literal returned by _process_archived_documents, in
source order; the empty-input early return and the main return share this
exact key list. -/
def documentStatsKeys : List String :=
  ["total_count", "total_word_count", "category_breakdown",
   "source_breakdown", "location_breakdown", "documents"]

/-- DataProcessor._process_archived_documents: the `if not documents` early
return, then one pass accumulating total word count, the three Counter
objects and the processed document list, returned with each Counter
flattened through most_common(). The single Python loop is split here into
one fold per accumulator; the folds visit the documents in the same order
as the loop. -/
def process_archived_documents (documents : List RawDoc) : DocumentStats :=
  if documents = [] then
    { total_count := 0
      total_word_count := 0
      category_breakdown := []
      source_breakdown := []
      location_breakdown := []
      documents := [] }
  else
    { total_count := documents.length
      total_word_count := (documents.map wordCountVal).sum
      category_breakdown :=
        mostCommon (documents.foldl (fun c doc => counterIncr c (dictGet doc.category (some "unknown"))) [])
      source_breakdown :=
        mostCommon (documents.foldl (fun c doc => counterIncr c (dictGet doc.source (some "unknown"))) [])
      location_breakdown :=
        mostCommon (documents.foldl (fun c doc => counterIncr c (dictGet doc.location (some "unknown"))) [])
      documents := documents.map processDoc }

/-- RawHighlight record of one entry of the highlights list, with the
fields _process_highlights reads. -/
structure RawHighlight where
  text : Option (Option String) := none
  note : Option (Option String) := none
  location : Option (Option String) := none
  highlighted_at : Option (Option String) := none
  book_id : Option (Option String) := none
  readwise_url : Option (Option String) := none
deriving DecidableEq

/-- Processed highlight dict built per kept highlight inside
DataProcessor._process_highlights; source is always the literal "unknown". -/
structure ProcessedHighlight where
  text : String
  note : String
  location : Option String
  highlighted_at : Option String
  book_id : Option String
  source : String
  readwise_url : Option String
deriving DecidableEq

/-- Python str.strip() with no argument: drop leading and trailing
whitespace characters. Defined structurally over the character list so
that it evaluates inside the kernel. -/
def pyStrip (s : String) : String :=
  String.mk (((s.data.dropWhile Char.isWhitespace).reverse.dropWhile Char.isWhitespace).reverse)

/-- Per-highlight body of the loop of _process_highlights:
highlight.get("text", "").strip() raises AttributeError when the text field
is present but None (modelled as .error); a stripped-empty text is skipped
(.ok none); otherwise highlight.get("note", "").strip() runs (again
AttributeError on a present None) and the processed dict is built. -/
def processHighlight (h : RawHighlight) : Except Unit (Option ProcessedHighlight) :=
  match dictGet h.text (some "") with
  | none => .error ()
  | some rawText =>
    let text := pyStrip rawText
    if text = "" then .ok none
    else
      match dictGet h.note (some "") with
      | none => .error ()
      | some rawNote =>
        .ok (some
          { text := text
            note := pyStrip rawNote
            location := dictGet h.location (some "")
            highlighted_at := dictGet h.highlighted_at (some "")
            book_id := dictGet h.book_id none
            source := "unknown"
            readwise_url := dictGet h.readwise_url (some "") })

/-- Output dict of DataProcessor._process_highlights. -/
structure HighlightData where
  total_count : Nat
  highlights : List ProcessedHighlight
  source_breakdown : List (Option String × Nat)
deriving DecidableEq

/-- Loop of _process_highlights over the input list, accumulating the kept
processed highlights in order and the source Counter (always keyed by the
literal "unknown"); the first AttributeError aborts the whole call. -/
def phGo : List RawHighlight → List ProcessedHighlight → List (Option String × Nat) →
    Except Unit HighlightData
  | [], acc, counts =>
    .ok { total_count := acc.length
          highlights := acc
          source_breakdown := mostCommon counts }
  | h :: rest, acc, counts =>
    match processHighlight h with
    | .error e => .error e
    | .ok none => phGo rest acc counts
    | .ok (some ph) => phGo rest (acc ++ [ph]) (counterIncr counts (some ph.source))

/-- DataProcessor._process_highlights: the `if not highlights` early return,
then the accumulating loop. -/
def process_highlights (highlights : List RawHighlight) : Except Unit HighlightData :=
  if highlights = [] then
    .ok { total_count := 0, highlights := [], source_breakdown := [] }
  else
    phGo highlights [] []

/-- Average words per article as computed in
MarkdownGenerator._generate_overview: the line
total_word_count // total_count is computed and inserted only under the
guard total_count > 0, so the value is absent for an empty report; Python
floor division on integers is Int.fdiv. -/
def averageWordsPerArticle (documents : DocumentStats) : Option Int :=
  if documents.total_count > 0 then
    some (Int.fdiv documents.total_word_count (documents.total_count : Int))
  else
    none

example :
    (process_archived_documents
      [{ category := some (some "article"), word_count := some (some 100) },
       { category := some (some "email"), word_count := some none },
       { category := some (some "email") }]).total_word_count = 100 := by rfl

example :
    (process_archived_documents
      [{ category := some (some "article") },
       { category := some (some "email") },
       { category := some (some "email") }]).category_breakdown
      = [(some "email", 2), (some "article", 1)] := by rfl

example :
    process_highlights [{ text := some (some "  keep  ") },
                        { text := some (some "   ") },
                        { text := none }]
      = .ok { total_count := 1
              highlights := [{ text := "keep", note := "", location := some ""
                               highlighted_at := some "", book_id := none
                               source := "unknown", readwise_url := some "" }]
              source_breakdown := [(some "unknown", 1)] } := by rfl

example :
    process_highlights [{ text := some (some "ok") }, { text := some none }]
      = .error () := by rfl

example :
    averageWordsPerArticle (process_archived_documents
      [{ word_count := some (some 100) }, { word_count := some (some 101) }])
      = some 100 := by rfl

instance {ε α : Type} [DecidableEq ε] [DecidableEq α] : DecidableEq (Except ε α) :=
  fun x y =>
    match x, y with
    | .ok a, .ok b => decidable_of_iff (a = b) (by simp)
    | .error e, .error f => decidable_of_iff (e = f) (by simp)
    | .ok _, .error _ => isFalse (fun h => Except.noConfusion h)
    | .error _, .ok _ => isFalse (fun h => Except.noConfusion h)

/-- C2: for a transport that raises on its first two attempts and returns a
2xx response on the third, _make_request returns the response body after
exactly the two backoff sleeps base_delay * 2 ^ 0 and base_delay * 2 ^ 1;
for a transport that raises on all three attempts, _make_request raises the
exhaustion error ReadwiseAPIError carrying the last underlying error. -/
theorem make_request_retry_semantics
    (t u : Nat → Attempt) (m0 m1 u0 u1 u2 : String) (s : Nat) (body : String)
    (ht0 : t 0 = .exc m0) (ht1 : t 1 = .exc m1) (ht2 : t 2 = .resp s none body)
    (hs : 200 ≤ s ∧ s < 300)
    (hu0 : u 0 = .exc u0) (hu1 : u 1 = .exc u1) (hu2 : u 2 = .exc u2) :
    make_request t = ([base_delay * 2 ^ 0, base_delay * 2 ^ 1], .ok body)
      ∧ make_request u
          = ([base_delay * 2 ^ 0, base_delay * 2 ^ 1], .error (.exhausted (.reqExc u2))) := by
  obtain ⟨hs1, hs2⟩ := hs
  have hne : s ≠ 429 := by omega
  have hnot : ¬(400 ≤ s ∧ s < 600) := by omega
  constructor
  · simp [make_request, max_retries, mrGo, ht0, ht1, ht2, hne, hnot, base_delay]
  · simp [make_request, max_retries, mrGo, hu0, hu1, hu2, base_delay]

/-- Witness for C2 at two concrete transports. -/
theorem make_request_retry_semantics_witness :
    make_request (fun a => if a < 2 then Attempt.exc "boom" else .resp 200 none "ok")
        = ([base_delay * 2 ^ 0, base_delay * 2 ^ 1], .ok "ok")
      ∧ make_request (fun _ => Attempt.exc "down")
          = ([base_delay * 2 ^ 0, base_delay * 2 ^ 1],
             .error (.exhausted (.reqExc "down"))) :=
  make_request_retry_semantics
    (fun a => if a < 2 then Attempt.exc "boom" else .resp 200 none "ok")
    (fun _ => Attempt.exc "down") "boom" "boom" "down" "down" "down" 200 "ok"
    rfl rfl rfl (by decide) rfl rfl rfl

/-- Counterexample to C3: on a transport that always answers 404,
_make_request does not surface a terminal failure immediately: it performs
the two backoff waits and only then raises the exhaustion error. -/
theorem make_request_404_cex :
    (make_request (fun _ => .resp 404 none "nf")).1 ≠ []
      ∧ make_request (fun _ => .resp 404 none "nf")
          = ([1, 2], .error (.exhausted (.httpError 404))) := by decide

/-- C3 (amended): a response whose status is 4xx or 5xx and not 429 makes
raise_for_status raise an HTTPError, which the RequestException handler
catches as retryable: the request is retried with exponential backoff and,
after all three attempts fail the same way, _make_request raises the
exhaustion error carrying the HTTP error. -/
theorem make_request_non2xx_retries
    (t : Nat → Attempt) (s : Nat) (hdr : Nat → Option HeaderVal) (body : Nat → String)
    (ht : ∀ a, t a = .resp s (hdr a) (body a))
    (h4 : 400 ≤ s) (h6 : s < 600) (hne : s ≠ 429) :
    make_request t
      = ([base_delay * 2 ^ 0, base_delay * 2 ^ 1],
         .error (.exhausted (.httpError s))) := by
  have hin : 400 ≤ s ∧ s < 600 := ⟨h4, h6⟩
  simp [make_request, max_retries, mrGo, ht 0, ht 1, ht 2, hne, hin, base_delay]

/-- Witness for the amended C3 at a transport answering 500 throughout. -/
theorem make_request_non2xx_retries_witness :
    make_request (fun _ => Attempt.resp 500 none "err")
      = ([base_delay * 2 ^ 0, base_delay * 2 ^ 1],
         .error (.exhausted (.httpError 500))) :=
  make_request_non2xx_retries (fun _ => Attempt.resp 500 none "err") 500
    (fun _ => none) (fun _ => "err") (fun _ => rfl) (by decide) (by decide) (by decide)

/-- Counterexample to C4: on a 429 response whose Retry-After header is
present but not parseable as an integer, _make_request performs no wait at
all and raises the ValueError coming from int(), instead of falling back to
the exponential formula. -/
theorem make_request_unparseable_retry_after_cex :
    make_request (fun _ => .resp 429 (some .unparseable) "limited")
      = ([], .error .valueError) := rfl

/-- C4 (amended): on a 429 response the wait before the next attempt equals
the Retry-After header value when present and parseable as an integer, and
falls back to base_delay * 2 ^ attempt when the header is absent; a header
that is present but not parseable makes _make_request raise the ValueError
from int(). -/
theorem make_request_retry_after
    (t u : Nat → Attempt) (n s su : Nat) (b0 b1 body bodyu : String)
    (ht0 : t 0 = .resp 429 (some (.parseable n)) b0)
    (ht1 : t 1 = .resp s none body) (hs : 200 ≤ s ∧ s < 300)
    (hu0 : u 0 = .resp 429 none b1)
    (hu1 : u 1 = .resp su none bodyu) (hsu : 200 ≤ su ∧ su < 300) :
    make_request t = ([n], .ok body)
      ∧ make_request u = ([base_delay * 2 ^ 0], .ok bodyu)
      ∧ make_request (fun _ => .resp 429 (some .unparseable) b0)
          = ([], .error .valueError) := by
  obtain ⟨hs1, hs2⟩ := hs
  obtain ⟨hsu1, hsu2⟩ := hsu
  have hne : s ≠ 429 := by omega
  have hnot : ¬(400 ≤ s ∧ s < 600) := by omega
  have hneu : su ≠ 429 := by omega
  have hnotu : ¬(400 ≤ su ∧ su < 600) := by omega
  refine ⟨?_, ?_, rfl⟩
  · simp [make_request, max_retries, mrGo, ht0, ht1, hne, hnot, base_delay]
  · simp [make_request, max_retries, mrGo, hu0, hu1, hneu, hnotu, base_delay]

/-- Witness for the amended C4 at concrete transports with Retry-After 5. -/
theorem make_request_retry_after_witness :
    make_request (fun a => if a = 0 then Attempt.resp 429 (some (.parseable 5)) "" else .resp 200 none "ok")
        = ([5], .ok "ok")
      ∧ make_request (fun a => if a = 0 then Attempt.resp 429 none "" else .resp 204 none "done")
          = ([base_delay * 2 ^ 0], .ok "done")
      ∧ make_request (fun _ => Attempt.resp 429 (some .unparseable) "")
          = ([], .error .valueError) :=
  make_request_retry_after
    (fun a => if a = 0 then Attempt.resp 429 (some (.parseable 5)) "" else .resp 200 none "ok")
    (fun a => if a = 0 then Attempt.resp 429 none "" else .resp 204 none "done")
    5 200 204 "" "" "ok" "done" rfl rfl (by decide) rfl rfl (by decide)

/-- On a well-formed record the filter body returns exactly the spec-side
keep predicate (the two conjuncts commute). -/
theorem filterDoc_eq_keepSpec (since : Int) (doc : RawDoc) (h : wfDoc doc = true) :
    filterDoc since doc = .ok (keepSpec since doc) := by
  unfold wfDoc at h
  unfold filterDoc keepSpec
  cases hlm : doc.last_moved_at with
  | good t => simp [Bool.and_comm]
  | bad => simp [hlm] at h
  | falsy =>
    cases hup : doc.updated_at with
    | good t => simp [Bool.and_comm]
    | bad => simp [hlm, hup] at h
    | falsy => simp

/-- On a page of well-formed records the filtering loop succeeds and keeps
exactly the records satisfying the spec-side predicate, in page order. -/
theorem filterPage_eq_filter (since : Int) (docs : List RawDoc)
    (h : ∀ d ∈ docs, wfDoc d = true) :
    filterPage since docs = .ok (docs.filter (keepSpec since)) := by
  induction docs with
  | nil => rfl
  | cons d rest ih =>
    have hd : wfDoc d = true := h d (by simp)
    have hrest : ∀ x ∈ rest, wfDoc x = true := fun x hx => h x (by simp [hx])
    unfold filterPage
    rw [filterDoc_eq_keepSpec since d hd, ih hrest]
    by_cases hk : keepSpec since d = true <;> simp [hk, List.filter_cons]

/-- C1: on every page whose records carry parseable timestamps,
get_archived_documents keeps a record if and only if its location equals
"archive" and (its last_moved_at is at least since when present, else its
updated_at is at least since when present, else it is dropped); keepSpec is
that predicate transcribed from the specification. -/
theorem get_archived_documents_keep_iff (since : Int) (docs : List RawDoc)
    (h : ∀ d ∈ docs, wfDoc d = true) :
    filterPage since docs = .ok (docs.filter (keepSpec since)) :=
  filterPage_eq_filter since docs h

/-- Concrete page used by the C1 witness: a kept archive record, an archive
record that is too old, a recent record in another location, a record kept
through its updated_at fallback, and a record with no timestamps. -/
def c1Docs : List RawDoc :=
  [{ location := some (some "archive"), last_moved_at := .good 7 },
   { location := some (some "archive"), last_moved_at := .good 3 },
   { location := some (some "new"), last_moved_at := .good 9 },
   { location := some (some "archive"), updated_at := .good 6 },
   { location := some (some "archive") }]

/-- Witness for C1 at the concrete page c1Docs with since = 5. -/
theorem get_archived_documents_keep_iff_witness :
    (∀ d ∈ c1Docs, wfDoc d = true)
      ∧ filterPage 5 c1Docs = .ok (c1Docs.filter (keepSpec 5)) :=
  ⟨by decide, get_archived_documents_keep_iff 5 c1Docs (by decide)⟩

/-- Archive record whose truthy last_moved_at string fromisoformat rejects. -/
def badTsDoc : RawDoc :=
  { location := some (some "archive"), last_moved_at := .bad }

/-- Archive record with a parseable recent last_moved_at. -/
def goodTsDoc : RawDoc :=
  { location := some (some "archive"), last_moved_at := .good 9 }

/-- Counterexample to C9: a page holding a record with an unparseable
timestamp followed by a perfectly good record is aborted whole — the
ValueError propagates and the good record is not returned — rather than the
malformed record being skipped. -/
theorem get_archived_documents_malformed_cex :
    filterPage 5 [badTsDoc, goodTsDoc] = .error ()
      ∧ filterPage 5 [badTsDoc, goodTsDoc] ≠ .ok [goodTsDoc]
      ∧ get_archived_documents 5 [⟨[badTsDoc, goodTsDoc], none⟩] = .error .parseError := by
  decide

/-- C9 (amended): a record whose truthy last_moved_at string is unparseable
(or whose last_moved_at is falsy while its truthy updated_at string is
unparseable) makes the page filter of get_archived_documents raise the
ValueError from datetime.fromisoformat, aborting the whole page instead of
skipping the record. -/
theorem get_archived_documents_malformed_aborts (since : Int) (docs : List RawDoc)
    (h : ∃ d ∈ docs, d.last_moved_at = TsVal.bad
          ∨ (d.last_moved_at = TsVal.falsy ∧ d.updated_at = TsVal.bad)) :
    filterPage since docs = .error ()
      ∧ ∀ (cursor : Option String) (rest : List PageResp),
          get_archived_documents since (⟨docs, cursor⟩ :: rest) = .error .parseError := by
  have hfp : filterPage since docs = .error () := by
    induction docs with
    | nil => simp at h
    | cons d rest ih =>
      obtain ⟨x, hx, hbad⟩ := h
      rcases List.mem_cons.mp hx with hhead | htail
      · subst hhead
        have hd : filterDoc since x = .error () := by
          unfold filterDoc
          rcases hbad with hb | ⟨hf, hb⟩
          · simp [hb]
          · simp [hb, hf]
        unfold filterPage
        rw [hd]
      · cases hfd : filterDoc since d with
        | error e => unfold filterPage; rw [hfd]
        | ok keep =>
          unfold filterPage
          rw [hfd, ih ⟨x, htail, hbad⟩]
  refine ⟨hfp, fun cursor rest => ?_⟩
  unfold get_archived_documents gadGo
  rw [hfp]

/-- Witness for the amended C9 at a concrete page where the malformed
record comes second. -/
theorem get_archived_documents_malformed_aborts_witness :
    (∃ d ∈ [goodTsDoc, badTsDoc], d.last_moved_at = TsVal.bad
        ∨ (d.last_moved_at = TsVal.falsy ∧ d.updated_at = TsVal.bad))
      ∧ (filterPage 0 [goodTsDoc, badTsDoc] = .error ()
          ∧ ∀ (cursor : Option String) (rest : List PageResp),
              get_archived_documents 0 (⟨[goodTsDoc, badTsDoc], cursor⟩ :: rest)
                = .error .parseError) :=
  ⟨by decide, get_archived_documents_malformed_aborts 0 [goodTsDoc, badTsDoc] (by decide)⟩

/-- Walk of the while-loop over a run of pages with truthy cursors closed
by one page with a falsy cursor: the accumulated documents are the starting
accumulator followed by each page's filtered results in page order, the
call count grows by the number of pages consumed, and any responses past
the closing page are never requested. -/
theorem gadGo_concat (since : Int) (front : List PageResp) :
    ∀ (lastPage : PageResp) (rest : List PageResp) (acc : List RawDoc) (calls : Nat),
    (∀ p ∈ front, cursorTruthy p.nextPageCursor = true) →
    cursorTruthy lastPage.nextPageCursor = false →
    (∀ p ∈ front ++ [lastPage], ∀ d ∈ p.results, wfDoc d = true) →
    gadGo since (front ++ lastPage :: rest) acc calls
      = .ok (calls + (front.length + 1),
          acc ++ ((front ++ [lastPage]).map fun p => p.results.filter (keepSpec since)).flatten) := by
  induction front with
  | nil =>
    intro lastPage rest acc calls _ hlast hwf
    have hwfl : ∀ d ∈ lastPage.results, wfDoc d = true := hwf lastPage (by simp)
    rw [List.nil_append]
    unfold gadGo
    rw [filterPage_eq_filter since lastPage.results hwfl]
    simp [hlast]
  | cons p front ih =>
    intro lastPage rest acc calls hfront hlast hwf
    have hwfp : ∀ d ∈ p.results, wfDoc d = true := hwf p (by simp)
    have hp : cursorTruthy p.nextPageCursor = true := hfront p (by simp)
    have hfront2 : ∀ q ∈ front, cursorTruthy q.nextPageCursor = true :=
      fun q hq => hfront q (by simp [hq])
    have hwf2 : ∀ q ∈ front ++ [lastPage], ∀ d ∈ q.results, wfDoc d = true :=
      fun q hq => hwf q (by simp at hq ⊢; tauto)
    show gadGo since (p :: (front ++ lastPage :: rest)) acc calls = _
    unfold gadGo
    rw [filterPage_eq_filter since p.results hwfp]
    simp only [hp, if_true]
    rw [ih lastPage rest (acc ++ p.results.filter (keepSpec since)) (calls + 1)
          hfront2 hlast hwf2]
    simp [List.append_assoc]
    omega

/-- C10: when the pages served carry truthy next-page cursors up to an Nth
page whose cursor is falsy, get_archived_documents performs exactly N fetch
calls — later responses are never requested — and returns the concatenation
of every consumed page's filtered records, in page order then in-page
order. -/
theorem get_archived_documents_pagination (since : Int)
    (front : List PageResp) (lastPage : PageResp) (rest : List PageResp)
    (hfront : ∀ p ∈ front, cursorTruthy p.nextPageCursor = true)
    (hlast : cursorTruthy lastPage.nextPageCursor = false)
    (hwf : ∀ p ∈ front ++ [lastPage], ∀ d ∈ p.results, wfDoc d = true) :
    get_archived_documents since (front ++ lastPage :: rest)
      = .ok (front.length + 1,
          ((front ++ [lastPage]).map fun p => p.results.filter (keepSpec since)).flatten) := by
  unfold get_archived_documents
  rw [gadGo_concat since front lastPage rest [] 0 hfront hlast hwf]
  simp

/-- Three cursor pages used by the C10 witness, the third with no cursor,
followed by an extra response that must never be fetched. -/
def c10Front : List PageResp :=
  [⟨[{ location := some (some "archive"), last_moved_at := .good 7 }], some "c1"⟩,
   ⟨[{ location := some (some "archive"), last_moved_at := .good 8 },
     { location := some (some "later"), last_moved_at := .good 8 }], some "c2"⟩]

/-- Closing page of the C10 witness. -/
def c10Last : PageResp :=
  ⟨[{ location := some (some "archive"), last_moved_at := .good 9 }], none⟩

/-- Witness for C10: three pages are fetched, the fourth response is never
requested, and the result is the filtered concatenation. -/
theorem get_archived_documents_pagination_witness :
    (∀ p ∈ c10Front, cursorTruthy p.nextPageCursor = true)
      ∧ cursorTruthy c10Last.nextPageCursor = false
      ∧ get_archived_documents 5
          (c10Front ++ c10Last :: [⟨[{ location := some (some "archive"), last_moved_at := .good 2 }], none⟩])
          = .ok (3, ((c10Front ++ [c10Last]).map fun p => p.results.filter (keepSpec 5)).flatten) :=
  ⟨by decide, by decide,
    get_archived_documents_pagination 5 c10Front c10Last
      [⟨[{ location := some (some "archive"), last_moved_at := .good 2 }], none⟩]
      (by decide) (by decide) (by decide)⟩

/-- Documents used by the C5 counterexample, with last_moved_at values
2023-01-03, missing, and 2023-01-05 (dates encoded as ordered instants). -/
def c5Docs : List RawDoc :=
  [{ location := some (some "archive"), last_moved_at := .good 20230103 },
   { location := some (some "archive") },
   { location := some (some "archive"), last_moved_at := .good 20230105 }]

/-- Counterexample to C5: for inputs with last_moved_at =
[2023-01-03, missing, 2023-01-05] the aggregated document sequence stays in
input order instead of the claimed descending order with the missing
timestamp last. -/
theorem documents_not_sorted_cex :
    ((process_archived_documents c5Docs).documents.map fun d => d.last_moved_at)
        = [.good 20230103, .falsy, .good 20230105]
      ∧ ((process_archived_documents c5Docs).documents.map fun d => d.last_moved_at)
          ≠ [.good 20230105, .good 20230103, .falsy] := by decide

/-- C5 (amended): the documents sequence of the aggregated report preserves
the input order of the raw documents — no sorting by last_moved_at is
performed anywhere in the aggregation. -/
theorem documents_in_input_order (docs : List RawDoc) :
    (process_archived_documents docs).documents = docs.map processDoc := by
  by_cases h : docs = [] <;> simp [process_archived_documents, h]

/-- Entries of most_common() are pairwise ordered by descending count. -/
theorem mostCommon_sorted (c : List (Option String × Nat)) :
    (mostCommon c).Pairwise (fun a b => b.2 ≤ a.2) := by
  haveI : IsTotal (Option String × Nat) (fun a b => b.2 ≤ a.2) :=
    ⟨fun a b => Nat.le_total b.2 a.2⟩
  haveI : IsTrans (Option String × Nat) (fun a b => b.2 ≤ a.2) :=
    ⟨fun _ _ _ hab hbc => le_trans hbc hab⟩
  exact List.sorted_insertionSort _ c

/-- Document with tags used by the C6 counterexample. -/
def c6TagsDoc : RawDoc :=
  { category := some (some "article"), tags := some (some ["lean", "python"]) }

/-- Counterexample to C6: a document carrying two tags produces exactly the
same aggregated statistics as the same document without tags, and no
tag-breakdown entry exists among the keys of the returned statistics — no
tag bucket is ever incremented. -/
theorem no_tag_breakdown_cex :
    process_archived_documents [c6TagsDoc]
        = process_archived_documents [{ c6TagsDoc with tags := none }]
      ∧ "tag_breakdown" ∉ documentStatsKeys := by decide

/-- C6 (amended): the aggregated document statistics contain no tag
breakdown (their keys are exactly the six of the source dict literal); the
breakdowns that are produced — category, source and location — are ordered
by descending count. -/
theorem breakdowns_sorted_and_no_tag_breakdown (docs : List RawDoc) :
    (process_archived_documents docs).category_breakdown.Pairwise (fun a b => b.2 ≤ a.2)
      ∧ (process_archived_documents docs).source_breakdown.Pairwise (fun a b => b.2 ≤ a.2)
      ∧ (process_archived_documents docs).location_breakdown.Pairwise (fun a b => b.2 ≤ a.2)
      ∧ "tag_breakdown" ∉ documentStatsKeys := by
  refine ⟨?_, ?_, ?_, by decide⟩ <;>
    by_cases h : docs = [] <;>
      simp [process_archived_documents, h, mostCommon_sorted]

/-- Counterexample to C7: for an empty report the average-words value is
absent from the overview (the guarded division line is skipped), not 0. -/
theorem average_words_empty_cex :
    averageWordsPerArticle (process_archived_documents []) = none
      ∧ averageWordsPerArticle (process_archived_documents []) ≠ some 0 := by decide

/-- C7 (amended): averageWordsPerArticle equals the floor of
totalWordCount divided by totalCount whenever the report holds at least one
document, and is omitted (absent, rather than 0) when totalCount = 0; the
division is guarded by totalCount > 0, so no division by zero occurs. -/
theorem average_words_floor (docs : List RawDoc) (h : docs ≠ []) :
    averageWordsPerArticle (process_archived_documents docs)
        = some (Int.fdiv ((docs.map wordCountVal).sum) (docs.length : Int))
      ∧ averageWordsPerArticle (process_archived_documents []) = none := by
  refine ⟨?_, rfl⟩
  have hpos : 0 < docs.length := List.length_pos.mpr h
  simp [averageWordsPerArticle, process_archived_documents, h, hpos]

/-- Witness for the amended C7 at two documents of 100 and 101 words. -/
theorem average_words_floor_witness :
    ([{ word_count := some (some 100) }, { word_count := some (some 101) }] : List RawDoc) ≠ []
      ∧ (averageWordsPerArticle (process_archived_documents
            [{ word_count := some (some 100) }, { word_count := some (some 101) }])
          = some (Int.fdiv (([{ word_count := some (some 100) },
              { word_count := some (some 101) }] : List RawDoc).map wordCountVal).sum 2)
        ∧ averageWordsPerArticle (process_archived_documents []) = none) :=
  ⟨by decide,
    average_words_floor [{ word_count := some (some 100) }, { word_count := some (some 101) }]
      (by decide)⟩

/-- A highlight whose text and note fields are not present-but-None is
processed without raising. -/
theorem processHighlight_ok (x : RawHighlight)
    (ht : x.text ≠ some none) (hn : x.note ≠ some none) :
    ∃ r, processHighlight x = .ok r := by
  rcases htx : x.text with _ | tv
  · exact ⟨none, by unfold processHighlight; rw [htx]; rfl⟩
  · rcases tv with _ | s
    · exact absurd htx ht
    · by_cases hstrip : pyStrip s = ""
      · refine ⟨none, ?_⟩
        unfold processHighlight
        rw [htx]
        simp [dictGet, hstrip]
      · rcases htn : x.note with _ | nv
        · unfold processHighlight
          rw [htx, htn]
          simp [dictGet, hstrip]
        · rcases nv with _ | ns
          · exact absurd htn hn
          · unfold processHighlight
            rw [htx, htn]
            simp [dictGet, hstrip]

/-- The highlight loop succeeds on any input list free of present-but-None
text and note fields. -/
theorem phGo_ok (hls : List RawHighlight)
    (h : ∀ x ∈ hls, x.text ≠ some none ∧ x.note ≠ some none) :
    ∀ (acc : List ProcessedHighlight) (counts : List (Option String × Nat)),
    ∃ out, phGo hls acc counts = .ok out := by
  induction hls with
  | nil => exact fun acc counts => ⟨_, rfl⟩
  | cons x rest ih =>
    intro acc counts
    obtain ⟨hx1, hx2⟩ := h x (by simp)
    have hrest : ∀ y ∈ rest, y.text ≠ some none ∧ y.note ≠ some none :=
      fun y hy => h y (by simp [hy])
    obtain ⟨r, hr⟩ := processHighlight_ok x hx1 hx2
    cases r with
    | none =>
      obtain ⟨out, hout⟩ := ih hrest acc counts
      exact ⟨out, by unfold phGo; rw [hr]; exact hout⟩
    | some ph =>
      obtain ⟨out, hout⟩ := ih hrest (acc ++ [ph]) (counterIncr counts (some ph.source))
      exact ⟨out, by unfold phGo; rw [hr]; exact hout⟩

/-- Counterexample to C8: a highlight whose text field is present but None
makes the aggregation raise (None.strip() is an AttributeError), and so
does a present-but-None note on a highlight with non-empty text. -/
theorem aggregation_null_field_raises_cex :
    process_highlights [{ text := some none }] = .error ()
      ∧ process_highlights [{ text := some (some "kept"), note := some none }] = .error () := by
  decide

/-- C8 (amended): the aggregation never raises for missing fields — every
absent key is replaced by its documented default (0 for word counts,
"unknown" for category and source, "Untitled" for the title) and document
processing is total even on present-but-None fields; highlight processing
succeeds whenever no highlight carries a present-but-None text or note
field (such a field raises an AttributeError, per the counterexample). -/
theorem aggregation_defaults_and_no_raise (docs : List RawDoc) (hls : List RawHighlight)
    (h : ∀ x ∈ hls, x.text ≠ some none ∧ x.note ≠ some none) :
    (∃ out, process_highlights hls = .ok out)
      ∧ ∀ d ∈ docs,
          (d.word_count = none → (processDoc d).word_count = 0)
            ∧ (d.category = none → (processDoc d).category = some "unknown")
            ∧ (d.source = none → (processDoc d).source = some "unknown")
            ∧ (d.title = none → (processDoc d).title = some "Untitled") := by
  constructor
  · by_cases hempty : hls = []
    · exact ⟨_, by rw [hempty]; rfl⟩
    · obtain ⟨out, hout⟩ := phGo_ok hls h [] []
      exact ⟨out, by unfold process_highlights; rw [if_neg hempty, hout]⟩
  · intro d _
    refine ⟨fun hwc => ?_, fun hc => ?_, fun hsrc => ?_, fun hti => ?_⟩
    · simp [processDoc, wordCountVal, dictGet, hwc]
    · simp [processDoc, dictGet, hc]
    · simp [processDoc, dictGet, hsrc]
    · simp [processDoc, dictGet, hti]

/-- Highlights used by the C8 witness: one kept, one empty after stripping,
one with a missing text key. -/
def c8Highlights : List RawHighlight :=
  [{ text := some (some "  keep  "), note := none },
   { text := some (some "   ") },
   { text := none }]

/-- Documents used by the C8 witness, each missing a different field. -/
def c8Docs : List RawDoc :=
  [{ category := some (some "article") }, { word_count := some (some 42) }]

/-- Witness for the amended C8 at concrete lists with missing fields. -/
theorem aggregation_defaults_and_no_raise_witness :
    (∀ x ∈ c8Highlights, x.text ≠ some none ∧ x.note ≠ some none)
      ∧ ((∃ out, process_highlights c8Highlights = .ok out)
          ∧ ∀ d ∈ c8Docs,
              (d.word_count = none → (processDoc d).word_count = 0)
                ∧ (d.category = none → (processDoc d).category = some "unknown")
                ∧ (d.source = none → (processDoc d).source = some "unknown")
                ∧ (d.title = none → (processDoc d).title = some "Untitled")) :=
  ⟨by decide, aggregation_defaults_and_no_raise c8Docs c8Highlights (by decide)⟩
